import Mathlib

/-!
Verification of the redis_opentracing instrumentation module
(src/redis_opentracing/__init__.py) against its specification.

The module is Python 2 code that monkey-patches redis-py clients,
pipelines and pubsub objects so that each command dispatch is wrapped in
an OpenTracing span.  We give a shallow embedding: every wrapper function
becomes a Lean function from its inputs (configuration, the patched
object's attributes, the positional arguments, and an oracle standing for
the original, unpatched method) to the returned-or-raised outcome
together with the list of spans the call produced and a flag recording
whether the original method was actually invoked.

Python values that flow into statement strings are modelled by `PyVal`:
an opaque value of which we keep its `str()` display form, whether
`unicode()` conversion of that form succeeds (Python 2 byte strings with
non-ASCII bytes fail), its truthiness, and the two attributes the
peer-tag lookup inspects (`connection_pool`, `connection_kwargs`; `none`
models an absent attribute, so attribute access on `none` raises
`AttributeError`).  Exceptions are modelled by `PyExc`; a function that
can raise returns `Except PyExc`.
-/

set_option autoImplicit false

namespace RedisOpentracing

/-- Python exceptions, as far as the instrumentation distinguishes them:
`attributeError a` models `AttributeError` from accessing a missing
attribute `a`, `indexError` models `IndexError` from `args[0]` on an
empty tuple, and `exc n` is an arbitrary exception raised by the
underlying store call (the number is its identity, so that "propagates
unchanged" is expressible). -/
inductive PyExc where
  | attributeError (attr : String)
  | indexError
  | exc (n : Nat)
deriving DecidableEq

/-- Equality of raised-or-returned outcomes is decidable, so concrete
instances of the theorems below can be checked by evaluation. -/
instance exceptDecEq {ε α : Type} [DecidableEq ε] [DecidableEq α] : DecidableEq (Except ε α) :=
  fun a b =>
  match a, b with
  | Except.ok x, Except.ok y =>
    if h : x = y then Decidable.isTrue (by rw [h])
    else Decidable.isFalse (fun he => h (by cases he; rfl))
  | Except.error x, Except.error y =>
    if h : x = y then Decidable.isTrue (by rw [h])
    else Decidable.isFalse (fun he => h (by cases he; rfl))
  | Except.ok _, Except.error _ => Decidable.isFalse (fun he => Except.noConfusion he)
  | Except.error _, Except.ok _ => Decidable.isFalse (fun he => Except.noConfusion he)

/-- The `connection_kwargs` dict of a connection pool: we keep the two
keys the code reads.  `host = some ""` models a present-but-empty host
(falsy in Python, like an absent key); same for `port = some 0`. -/
structure ConnKwargs where
  host : Option String
  port : Option Int
deriving DecidableEq

/-- A `connection_pool` attribute value: an object that may or may not
itself have a `connection_kwargs` attribute. -/
structure Pool where
  connection_kwargs : Option ConnKwargs
deriving DecidableEq

/-- Model of an arbitrary Python value as the instrumentation observes
it.  `display` is the result of `str(v)`; `decodable` says whether
`unicode(str(v))` succeeds (False for byte strings holding non-ASCII
bytes); `truthy` is the result of `bool(v)`; the two attribute fields
are `none` when the attribute is missing. -/
structure PyVal where
  display : String
  decodable : Bool
  truthy : Bool
  connection_pool : Option Pool
  connection_kwargs : Option ConnKwargs
deriving DecidableEq

/-- A convenient constructor for plain text arguments (an ASCII command
word such as "SET"): decodable, truthy, no connection attributes. -/
def strVal (s : String) : PyVal :=
  { display := s, decodable := true, truthy := true
    connection_pool := none, connection_kwargs := none }

/-- Values a span tag can carry: strings, integers (the peer port), and
exception objects (the `error.object` tag). -/
inductive TagVal where
  | s (v : String)
  | i (v : Int)
  | e (v : PyExc)
deriving DecidableEq

/-- A span as the instrumentation produces it: its operation name, the
tags set on it in order, and how many times `finish()` was called on it
(so "finished exactly once" is expressible, and a span leaked by a raise
between `start_child_span` and `finish` shows up with count 0). -/
structure Span where
  operationName : String
  tags : List (String × TagVal)
  finishCount : Nat
deriving DecidableEq

/-- Look up the first value set for a tag key on a span. -/
def tagOf (sp : Span) (k : String) : Option TagVal :=
  (sp.tags.find? (fun t => t.fst = k)).map (fun t => t.snd)

/-- The process-wide configuration the module keeps in the globals
`g_trace_prefix` (here `pfx`; `none` models the Python `None` initial
value) and `g_trace_all_classes`. -/
structure Config where
  pfx : Option String
  trace_all_classes : Bool
deriving DecidableEq

/-- `_ARGUMENT_LENGTH_LIMIT = 128`. -/
def ARGUMENT_LENGTH_LIMIT : Nat := 128

/-- External constant `opentracing.ext.tags.PEER_HOST_IPV4`. -/
def PEER_HOST_IPV4 : String := "peer.ipv4"

/-- External constant `opentracing.ext.tags.PEER_HOSTNAME`. -/
def PEER_HOSTNAME : String := "peer.hostname"

/-- External constant `opentracing.ext.tags.PEER_PORT`. -/
def PEER_PORT : String := "peer.port"

/-- `_get_operation_name`: prepend `g_trace_prefix` and a slash when the
global is not `None` (an empty-string value still counts as set, since
the code tests `is not None`).  The argument is the display form of the
operation-name value the caller passes. -/
def get_operation_name (cfg : Config) (operation_name : String) : String :=
  match cfg.pfx with
  | some p => p ++ "/" ++ operation_name
  | none => operation_name

/-- Python slice `s[:n]` on a (unicode) string: the first `n`
characters. -/
def pySlice (s : String) (n : Nat) : String :=
  String.mk (s.data.take n)

/-- `_truncate`: `str(val)`, then inside a bare `try`: `unicode(val)`
and, when longer than `_ARGUMENT_LENGTH_LIMIT`, the slice to that limit;
on any failure of the `try` body the placeholder `u'{bytes}'`. -/
def truncate (val : PyVal) : String :=
  if val.decodable then
    if val.display.length > ARGUMENT_LENGTH_LIMIT then
      pySlice val.display ARGUMENT_LENGTH_LIMIT
    else
      val.display
  else
    "\x7bbytes\x7d"

/-- `_normalize_stmt`: space-join the truncations of all arguments. -/
def normalize_stmt (args : List PyVal) : String :=
  String.intercalate " " (args.map truncate)

/-- One entry of a pipeline's `command_stack`: a pair of the argument
tuple and the options dict (opaque here); the code reads `command[0]`. -/
abbrev CmdEntry := List PyVal × Nat

/-- `_normalize_stmts`: normalize `command[0]` of each stacked command
and join with `;` in submission order. -/
def normalize_stmts (command_stack : List CmdEntry) : String :=
  String.intercalate ";" (command_stack.map (fun command => normalize_stmt command.fst))

/-- The regex `^\d{1,3}\.\d{1,3}\.\d{1,3}\.\d{1,3}$`: split on the dots,
there must be exactly four groups of one to three decimal digits. -/
def ipv4Match (host : String) : Bool :=
  let gs := host.data.splitOn '.'
  gs.length = 4 && gs.all (fun g => 1 ≤ g.length && g.length ≤ 3 && g.all Char.isDigit)

/-- The `connection_kwargs` the peer lookup will read: from
`self.connection_pool` when that attribute exists, else from `self`
itself.  `none` means the attribute access `…​.connection_kwargs` raises
`AttributeError`. -/
def lookupKwargs (self : PyVal) : Option ConnKwargs :=
  match self.connection_pool with
  | some pool => pool.connection_kwargs
  | none => self.connection_kwargs

/-- `_peer_tags`: pick the connection pool (the object itself when it
has no `connection_pool` attribute), read its `connection_kwargs`
(raising `AttributeError` when missing), then tag a truthy host as
`peer.ipv4` or `peer.hostname` by the IPv4 regex and a truthy port as
`peer.port`. -/
def peer_tags (self : PyVal) : Except PyExc (List (String × TagVal)) :=
  match lookupKwargs self with
  | none => Except.error (PyExc.attributeError "connection_kwargs")
  | some conn_info =>
    let hostTags : List (String × TagVal) :=
      match conn_info.host with
      | some host =>
        if host ≠ "" then
          if ipv4Match host then [(PEER_HOST_IPV4, TagVal.s host)]
          else [(PEER_HOSTNAME, TagVal.s host)]
        else []
      | none => []
    let portTags : List (String × TagVal) :=
      match conn_info.port with
      | some port => if port ≠ 0 then [(PEER_PORT, TagVal.i port)] else []
      | none => []
    Except.ok (hostTags ++ portTags)

/-- The four tags `_set_base_span_tags` always sets, in order. -/
def baseTags (stmt : String) : List (String × TagVal) :=
  [("component", TagVal.s "redis-py"),
   ("db.type", TagVal.s "redis"),
   ("db.statement", TagVal.s stmt),
   ("span.kind", TagVal.s "client")]

/-- `_set_base_span_tags`: when `self` is truthy, first set every peer
tag (`_peer_tags` may raise, in which case nothing has been set and the
exception propagates); then the four base tags.  Returns the list of
tags set on the span, in order. -/
def set_base_span_tags (self : Option PyVal) (stmt : String) :
    Except PyExc (List (String × TagVal)) :=
  match self with
  | some v =>
    if v.truthy then
      match peer_tags v with
      | Except.error e => Except.error e
      | Except.ok pt => Except.ok (pt ++ baseTags stmt)
    else
      Except.ok (baseTags stmt)
  | none => Except.ok (baseTags stmt)

/-- Whether `_set_base_span_tags` can be relied on not to raise for this
originating object: either it is not truthy (the peer lookup is skipped)
or the connection kwargs are found. -/
def peerSafe (v : PyVal) : Bool :=
  !v.truthy || (lookupKwargs v).isSome

/-- What one traced dispatch call produced: the value returned to the
caller (or the exception that propagated out of the wrapper), every span
the call started, and whether the original, unpatched method was
actually invoked. -/
structure WrapOut (α : Type) where
  result : Except PyExc α
  spans : List Span
  called : Bool

/-- The common tail of the wrappers that re-raise: run the original
method (`oracle` is its outcome for this call), and on exception set
`error` and `error.object` before the `finally: span.finish()`; on
success finish and return the value unchanged. -/
def runBracket {α : Type} (opName : String) (tags : List (String × TagVal))
    (oracle : Except PyExc α) : WrapOut α :=
  match oracle with
  | Except.ok rv =>
    { result := Except.ok rv
      spans := [{ operationName := opName, tags := tags, finishCount := 1 }]
      called := true }
  | Except.error exc =>
    { result := Except.error exc
      spans := [{ operationName := opName
                  tags := tags ++ [("error", TagVal.s "true"), ("error.object", TagVal.e exc)]
                  finishCount := 1 }]
      called := true }

/-- `tracing_execute_command` (from `_patch_obj_execute_command`): with
`is_klass` the first positional argument is the instance itself and is
used as the originating object, otherwise the originating object is
`None`; `command = reported_args[0]` (raising `IndexError` when empty,
before any span exists); then a span named after the command, base tags
from the space-joined statement (a raise there propagates and leaks the
started span unfinished), the original call, and the usual
error-tag/finish/return bracket. -/
def tracing_execute_command {α : Type} (cfg : Config) (is_klass : Bool)
    (args : List PyVal) (oracle : Except PyExc α) : WrapOut α :=
  let selfAndReported : Except PyExc (Option PyVal × List PyVal) :=
    match is_klass, args with
    | true, [] => Except.error PyExc.indexError
    | true, a :: rest => Except.ok (some a, rest)
    | false, _ => Except.ok (none, args)
  match selfAndReported with
  | Except.error e => { result := Except.error e, spans := [], called := false }
  | Except.ok (self, reported_args) =>
    match reported_args with
    | [] => { result := Except.error PyExc.indexError, spans := [], called := false }
    | command :: _ =>
      let opName := get_operation_name cfg command.display
      match set_base_span_tags self (normalize_stmt reported_args) with
      | Except.error e =>
        { result := Except.error e
          spans := [{ operationName := opName, tags := [], finishCount := 0 }]
          called := false }
      | Except.ok tags => runBracket opName tags oracle

/-- A pipeline object as `_patch_pipe_execute` sees it: its attribute
bag (for the peer lookup and truthiness) and its `command_stack`. -/
structure Pipe where
  obj : PyVal
  command_stack : List CmdEntry
deriving DecidableEq

/-- Outcome of the original `execute()` for one call: the new command
stack it leaves behind (redis-py clears it) and the returned value or
raised exception. -/
structure ExecOutcome (α : Type) where
  new_stack : List CmdEntry
  result : Except PyExc α

/-- What a traced `execute()` call produced: the pipe state afterwards,
plus the usual result/spans/called. -/
structure PipeOut (α : Type) where
  pipe : Pipe
  result : Except PyExc α
  spans : List Span
  called : Bool

/-- `tracing_execute` (from `_patch_pipe_execute`): with an empty
`command_stack` call straight through; otherwise start a span named
`MULTI` (through `_get_operation_name`), capture the `;`-joined
statement from the stack before invoking the original execute, then the
usual error-tag/finish/return bracket.  `oracle` maps the
`raise_on_error` flag and the current stack to the original method's
outcome for this call. -/
def tracing_execute {α : Type} (cfg : Config) (pipe : Pipe)
    (oracle : Bool → List CmdEntry → ExecOutcome α) (raise_on_error : Bool) : PipeOut α :=
  if pipe.command_stack = [] then
    let o := oracle raise_on_error pipe.command_stack
    { pipe := { pipe with command_stack := o.new_stack }
      result := o.result, spans := [], called := true }
  else
    let opName := get_operation_name cfg "MULTI"
    match set_base_span_tags (some pipe.obj) (normalize_stmts pipe.command_stack) with
    | Except.error e =>
      { pipe := pipe, result := Except.error e
        spans := [{ operationName := opName, tags := [], finishCount := 0 }]
        called := false }
    | Except.ok tags =>
      let o := oracle raise_on_error pipe.command_stack
      let out := runBracket opName tags o.result
      { pipe := { pipe with command_stack := o.new_stack }
        result := out.result, spans := out.spans, called := true }

/-- `tracing_immediate_execute_command` (from `_patch_pipe_execute`):
like a single command interceptor scoped to the pipe, but the `try`
block stores the result in `res` without ever returning it, and the
`except` clause tags the error without re-raising; on both paths the
function falls off its end, so the caller receives Python `None`
(modelled as `Except.ok none`). -/
def tracing_immediate_execute_command {α : Type} (cfg : Config) (pipe : Pipe)
    (args : List PyVal) (oracle : Except PyExc α) : WrapOut (Option α) :=
  match args with
  | [] => { result := Except.error PyExc.indexError, spans := [], called := false }
  | command :: _ =>
    let opName := get_operation_name cfg command.display
    match set_base_span_tags (some pipe.obj) (normalize_stmt args) with
    | Except.error e =>
      { result := Except.error e
        spans := [{ operationName := opName, tags := [], finishCount := 0 }]
        called := false }
    | Except.ok tags =>
      match oracle with
      | Except.ok _ =>
        { result := Except.ok none
          spans := [{ operationName := opName, tags := tags, finishCount := 1 }]
          called := true }
      | Except.error exc =>
        { result := Except.ok none
          spans := [{ operationName := opName
                      tags := tags ++ [("error", TagVal.s "true"), ("error.object", TagVal.e exc)]
                      finishCount := 1 }]
          called := true }

/-- `tracing_parse_response` (from `_patch_pubsub_parse_response`): a
span named `SUB` with an empty statement, around the original
`parse_response(block=block, timeout=timeout)`, with the usual
error-tag/finish/return bracket.  `oracle` maps the two keyword
arguments to the original method's outcome. -/
def tracing_parse_response {α : Type} (cfg : Config) (pubsub : PyVal)
    (oracle : Bool → Int → Except PyExc α) (block : Bool) (timeout : Int) : WrapOut α :=
  let opName := get_operation_name cfg "SUB"
  match set_base_span_tags (some pubsub) "" with
  | Except.error e =>
    { result := Except.error e
      spans := [{ operationName := opName, tags := [], finishCount := 0 }]
      called := false }
  | Except.ok tags => runBracket opName tags (oracle block timeout)

/-!
Activation model.  `_patch_redis_classes` assigns new functions to
attributes of the class `redis.StrictRedis`; `_patch_client` assigns
them to attributes of one instance.  Python resolves
`inst.execute_command` through the instance dict first and falls back to
the class dict, and creating an instance puts no methods into its
instance dict, so a class-level assignment is seen by every instance
whose own dict does not shadow the name — whether the instance was
created before or after the assignment.
-/

/-- The attributes of `redis.StrictRedis` that the module reassigns;
each flag says whether the traced replacement is installed on the
class. -/
structure RedisClassDict where
  execute_command_traced : Bool
  pipeline_traced : Bool
  pubsub_traced : Bool
deriving DecidableEq

/-- The class dict before any patching: the original methods. -/
def initialClassDict : RedisClassDict :=
  { execute_command_traced := false, pipeline_traced := false, pubsub_traced := false }

/-- One client instance: its value (attribute bag used as the
originating object on the class-level path) and whether `trace_client`
shadowed `execute_command` in its instance dict. -/
structure RedisInstance where
  val : PyVal
  inst_traced : Bool
deriving DecidableEq

/-- Constructing an instance: Python puts no methods into the instance
dict, regardless of the current state of the class dict. -/
def newInstance (v : PyVal) : RedisInstance :=
  { val := v, inst_traced := false }

/-- `_patch_redis_classes`: replace `execute_command`, `pipeline` and
`pubsub` on the class. -/
def patch_redis_classes (_cls : RedisClassDict) : RedisClassDict :=
  { execute_command_traced := true, pipeline_traced := true, pubsub_traced := true }

/-- `setup_tracing`: store both globals, then patch the classes when
`trace_all_classes` is set. -/
def setup_tracing (trace_all_classes : Bool) (p : String) (cls : RedisClassDict) :
    Config × RedisClassDict :=
  let cfg : Config := { pfx := some p, trace_all_classes := trace_all_classes }
  (cfg, if trace_all_classes then patch_redis_classes cls else cls)

/-- One `execute_command` dispatch on an instance, resolving the method
the way Python does: the instance dict first (a `trace_client` wrapper
closes over the bound method, so `is_klass` is false and the originating
object is `None`), then the class dict (the class-level wrapper receives
the instance as its first positional argument, `is_klass` true), else
the original method untraced. -/
def clientExecuteCommand {α : Type} (cfg : Config) (cls : RedisClassDict)
    (inst : RedisInstance) (cmdArgs : List PyVal) (oracle : Except PyExc α) : WrapOut α :=
  if inst.inst_traced then
    tracing_execute_command cfg false cmdArgs oracle
  else if cls.execute_command_traced then
    tracing_execute_command cfg true (inst.val :: cmdArgs) oracle
  else
    { result := oracle, spans := [], called := true }

/-!
Concrete sample data used by witnesses and counterexamples.
-/

/-- Configuration after `setup_tracing()` with the default "Redis". -/
def cfgR : Config := { pfx := some "Redis", trace_all_classes := true }

/-- The initial configuration: no tracing set up, so no name prepended. -/
def cfgN : Config := { pfx := none, trace_all_classes := true }

/-- Connection kwargs of a default local client. -/
def localKwargs : ConnKwargs := { host := some "127.0.0.1", port := some 6379 }

/-- A redis client object: truthy, with a `connection_pool` whose
`connection_kwargs` are present. -/
def goodObj : PyVal :=
  { display := "<redis>", decodable := true, truthy := true
    connection_pool := some { connection_kwargs := some localKwargs }
    connection_kwargs := none }

/-- A truthy object with neither `connection_pool` nor
`connection_kwargs`. -/
def bareObj : PyVal :=
  { display := "<obj>", decodable := true, truthy := true
    connection_pool := none, connection_kwargs := none }

/-- Another object with neither connection attribute (a pipeline-like
object with no owner). -/
def orphanPipeObj : PyVal :=
  { display := "<pipe>", decodable := true, truthy := true
    connection_pool := none, connection_kwargs := none }

/-- An object whose `connection_kwargs` sit directly on it, empty. -/
def emptyKwObj : PyVal :=
  { display := "<conn>", decodable := true, truthy := true
    connection_pool := none, connection_kwargs := some { host := none, port := none } }

/-- A pipeline with a well-connected object and two stacked commands. -/
def pipeTwo : Pipe :=
  { obj := goodObj
    command_stack := [([strVal "GET", strVal "a"], 0), ([strVal "GET", strVal "b"], 0)] }

/-- A pipeline with a well-connected object and an empty stack. -/
def pipeEmpty : Pipe := { obj := goodObj, command_stack := [] }

/-!
Helper lemmas about the tag lists the wrappers build.
-/

/-- Every tag `_peer_tags` can return carries one of the three peer
keys. -/
theorem peer_tags_keys (self : PyVal) (pt : List (String × TagVal))
    (h : peer_tags self = Except.ok pt) :
    ∀ t ∈ pt, t.fst = PEER_HOST_IPV4 ∨ t.fst = PEER_HOSTNAME ∨ t.fst = PEER_PORT := by
  unfold peer_tags at h
  cases hk : lookupKwargs self with
  | none => rw [hk] at h; simp at h
  | some ci =>
    rw [hk] at h
    simp only [Except.ok.injEq] at h
    subst h
    intro t ht
    rcases List.mem_append.mp ht with h1 | h2
    · cases hh : ci.host with
      | none => rw [hh] at h1; simp at h1
      | some host =>
        rw [hh] at h1
        by_cases hne : host = ""
        · simp [hne] at h1
        · simp only [hne, if_true, ne_eq, not_false_iff, if_neg] at h1
          by_cases hip : ipv4Match host = true
          · simp [hip] at h1; subst h1; left; rfl
          · simp [hip] at h1; subst h1; right; left; rfl
    · cases hp : ci.port with
      | none => rw [hp] at h2; simp at h2
      | some port =>
        rw [hp] at h2
        by_cases hz : port = 0
        · simp [hz] at h2
        · simp [hz] at h2; subst h2; right; right; rfl

/-- When the originating object is peer-safe, `_set_base_span_tags`
returns the peer tags followed by the four base tags. -/
theorem set_base_span_tags_ok (v : PyVal) (stmt : String) (h : peerSafe v = true) :
    ∃ pt, set_base_span_tags (some v) stmt = Except.ok (pt ++ baseTags stmt) ∧
      ∀ t ∈ pt, t.fst = PEER_HOST_IPV4 ∨ t.fst = PEER_HOSTNAME ∨ t.fst = PEER_PORT := by
  unfold set_base_span_tags
  by_cases ht : v.truthy = true
  · simp only [ht, if_true]
    unfold peerSafe at h
    rw [ht] at h
    simp only [Bool.not_true, Bool.false_or] at h
    cases hk : lookupKwargs v with
    | none => rw [hk] at h; simp at h
    | some ci =>
      cases hpt : peer_tags v with
      | error e =>
        unfold peer_tags at hpt
        rw [hk] at hpt
        simp at hpt
      | ok pt => exact ⟨pt, rfl, peer_tags_keys v pt hpt⟩
  · simp only [Bool.not_eq_true] at ht
    simp only [ht, Bool.false_eq_true, if_false]
    exact ⟨[], rfl, by simp⟩

/-- Scanning past peer tags: looking up any of the base keys in a tag
list that starts with peer tags skips them. -/
theorem find_skips_peer (pt rest0 : List (String × TagVal)) (k : String)
    (hpt : ∀ t ∈ pt, t.fst = PEER_HOST_IPV4 ∨ t.fst = PEER_HOSTNAME ∨ t.fst = PEER_PORT)
    (h1 : k ≠ PEER_HOST_IPV4) (h2 : k ≠ PEER_HOSTNAME) (h3 : k ≠ PEER_PORT) :
    (pt ++ rest0).find? (fun t => t.fst = k) = rest0.find? (fun t => t.fst = k) := by
  rw [List.find?_append]
  have : pt.find? (fun t => t.fst = k) = none := by
    rw [List.find?_eq_none]
    intro t htm
    rcases hpt t htm with hh | hh | hh <;> simp only [hh, decide_eq_true_eq] <;>
      first
        | exact fun he => h1 he.symm
        | exact fun he => h2 he.symm
        | exact fun he => h3 he.symm
  rw [this, Option.none_or]

/-- The length of a Python slice `s[:n]`. -/
theorem pySlice_length (s : String) (n : Nat) : (pySlice s n).length = min n s.length := by
  show (s.data.take n).length = min n s.data.length
  exact List.length_take n s.data

/-- A 130-character decodable argument value, for exercising the
truncation limit. -/
def longVal : PyVal :=
  { display := String.mk (List.replicate 130 'a'), decodable := true, truthy := true
    connection_pool := none, connection_kwargs := none }

/-- A byte-string value whose unicode conversion fails. -/
def bytesVal : PyVal :=
  { display := "binary-blob", decodable := false, truthy := true
    connection_pool := none, connection_kwargs := none }

/-- An oracle for the original pipeline `execute`: clears the stack and
returns 5. -/
def sampleExecOracle : Bool → List CmdEntry → ExecOutcome Int :=
  fun _ _ => { new_stack := [], result := Except.ok 5 }

/-- The `db.statement` tag of a span whose tags are peer tags, then the
base tags, then anything set later. -/
theorem tagOf_base_stmt (opn : String) (fc : Nat) (pt extra : List (String × TagVal))
    (stmt : String)
    (hpt : ∀ t ∈ pt, t.fst = PEER_HOST_IPV4 ∨ t.fst = PEER_HOSTNAME ∨ t.fst = PEER_PORT) :
    tagOf { operationName := opn, tags := pt ++ baseTags stmt ++ extra, finishCount := fc }
        "db.statement" = some (TagVal.s stmt) := by
  unfold tagOf
  rw [List.append_assoc,
    find_skips_peer pt _ _ hpt (by decide) (by decide) (by decide)]
  simp [baseTags]

/-- Properties of every span the common bracket produces: there is
exactly one, it carries the requested operation name, it is finished
exactly once, and its `db.statement` tag is the statement the base tags
were built from. -/
theorem runBracket_span_props {α : Type} (opn : String) (pt : List (String × TagVal))
    (stmt : String)
    (hpt : ∀ t ∈ pt, t.fst = PEER_HOST_IPV4 ∨ t.fst = PEER_HOSTNAME ∨ t.fst = PEER_PORT)
    (oracle : Except PyExc α) :
    (runBracket opn (pt ++ baseTags stmt) oracle).spans.length = 1 ∧
    ∀ sp ∈ (runBracket opn (pt ++ baseTags stmt) oracle).spans,
      sp.operationName = opn ∧ sp.finishCount = 1 ∧
      tagOf sp "db.statement" = some (TagVal.s stmt) := by
  cases oracle with
  | ok rv =>
    refine ⟨rfl, ?_⟩
    intro sp hsp
    simp only [runBracket, List.mem_singleton] at hsp
    subst hsp
    refine ⟨rfl, rfl, ?_⟩
    have h := tagOf_base_stmt opn 1 pt [] stmt hpt
    simpa using h
  | error e =>
    refine ⟨rfl, ?_⟩
    intro sp hsp
    simp only [runBracket, List.mem_singleton] at hsp
    subst hsp
    exact ⟨rfl, rfl,
      tagOf_base_stmt opn 1 pt [("error", TagVal.s "true"), ("error.object", TagVal.e e)]
        stmt hpt⟩

/-!
The claims.
-/

/-- C1: the claim says that when the underlying
`immediate_execute_command` returns normally, the traced wrapper hands
its return value back unchanged.  The wrapper's `try` block stores the
result in `res` but no statement ever returns it, so the function falls
off its end and the caller always receives Python `None`.  At a concrete
call whose underlying method returns 42, the wrapper does invoke the
original method, yet returns `None`, which differs from the value the
claim promises. -/
theorem immediate_execute_command_returns_none :
    (tracing_immediate_execute_command cfgR pipeEmpty
        [strVal "SET", strVal "k", strVal "v"] (Except.ok (42 : Int))).called = true ∧
    (tracing_immediate_execute_command cfgR pipeEmpty
        [strVal "SET", strVal "k", strVal "v"] (Except.ok (42 : Int))).result
      = Except.ok none ∧
    (Except.ok none : Except PyExc (Option Int)) ≠ Except.ok (some 42) := by
  refine ⟨rfl, rfl, by decide⟩

/-- C7: with an empty pending command stack, a traced pipeline
`execute()` produces no span and calls the original `execute` straight
through with the same `raise_on_error` argument: the wrapper's result,
resulting stack and call flag are exactly the original's. -/
theorem tracing_execute_empty_passthrough {α : Type} (cfg : Config) (pipe : Pipe)
    (oracle : Bool → List CmdEntry → ExecOutcome α) (raise_on_error : Bool)
    (h : pipe.command_stack = []) :
    (tracing_execute cfg pipe oracle raise_on_error).spans = [] ∧
    (tracing_execute cfg pipe oracle raise_on_error).result
      = (oracle raise_on_error pipe.command_stack).result ∧
    (tracing_execute cfg pipe oracle raise_on_error).pipe.command_stack
      = (oracle raise_on_error pipe.command_stack).new_stack ∧
    (tracing_execute cfg pipe oracle raise_on_error).called = true := by
  unfold tracing_execute
  simp [h]

/-- Witness for C7 at a concrete empty pipeline and oracle. -/
theorem tracing_execute_empty_passthrough_witness :
    pipeEmpty.command_stack = [] ∧
    ((tracing_execute cfgR pipeEmpty sampleExecOracle true).spans = [] ∧
     (tracing_execute cfgR pipeEmpty sampleExecOracle true).result
       = (sampleExecOracle true pipeEmpty.command_stack).result ∧
     (tracing_execute cfgR pipeEmpty sampleExecOracle true).pipe.command_stack
       = (sampleExecOracle true pipeEmpty.command_stack).new_stack ∧
     (tracing_execute cfgR pipeEmpty sampleExecOracle true).called = true) :=
  ⟨rfl, tracing_execute_empty_passthrough cfgR pipeEmpty sampleExecOracle true rfl⟩

/-- C8: each argument's contribution to `db.statement` is its display
form truncated to at most 128 characters — a display of at most 128
characters passes through unchanged, a longer one is cut to exactly 128
— and a value whose text conversion fails contributes the fixed
placeholder instead of raising (`_truncate` is total). -/
theorem truncate_bounds (v : PyVal) :
    (v.decodable = true → v.display.length ≤ 128 → truncate v = v.display) ∧
    (v.decodable = true → 128 < v.display.length →
      (truncate v).length = 128 ∧ truncate v = pySlice v.display 128) ∧
    (v.decodable = false → truncate v = "\x7bbytes\x7d") ∧
    (v.decodable = true → (truncate v).length ≤ 128) := by
  unfold truncate ARGUMENT_LENGTH_LIMIT
  refine ⟨?_, ?_, ?_, ?_⟩
  · intro hd hle
    simp [hd, Nat.not_lt.mpr hle]
  · intro hd hlt
    simp only [hd, if_true]
    rw [if_pos hlt]
    exact ⟨by rw [pySlice_length]; omega, rfl⟩
  · intro hd
    simp [hd]
  · intro hd
    simp only [hd, if_true]
    by_cases hlt : v.display.length > 128
    · simp only [hlt, if_pos]
      rw [pySlice_length]
      omega
    · simp only [hlt, if_neg, Bool.false_eq_true, not_false_iff]
      omega

/-- Witness for C8: a 130-character value is cut to exactly 128, and a
non-decodable value becomes the placeholder. -/
theorem truncate_bounds_witness :
    longVal.decodable = true ∧ 128 < longVal.display.length ∧
    (truncate longVal).length = 128 ∧
    bytesVal.decodable = false ∧ truncate bytesVal = "\x7bbytes\x7d" :=
  ⟨rfl, by show 128 < (List.replicate 130 'a').length; simp,
   ((truncate_bounds longVal).2.1 rfl
     (by show 128 < (List.replicate 130 'a').length; simp)).1,
   rfl, (truncate_bounds bytesVal).2.2.1 rfl⟩

/-- C9 counterexample: on an originating object with neither a
`connection_pool` attribute nor its own `connection_kwargs`, the peer
lookup reads `connection_kwargs` off the object itself and raises
`AttributeError` — it does not return "no peer tags" as claimed. -/
theorem peer_tags_orphan_raises :
    peer_tags orphanPipeObj = Except.error (PyExc.attributeError "connection_kwargs") := rfl

/-- C9 amended: an object lacking both connection attributes makes
`_peer_tags` raise `AttributeError` (rather than return no tags); only
an object that does expose `connection_kwargs` — directly or through
`connection_pool` — but with no host and no port present gets the
claimed no-raise, no-peer-tags outcome. -/
theorem peer_tags_missing_config (v : PyVal) :
    (v.connection_pool = none → v.connection_kwargs = none →
      peer_tags v = Except.error (PyExc.attributeError "connection_kwargs")) ∧
    (∀ kw : ConnKwargs, lookupKwargs v = some kw → kw.host = none → kw.port = none →
      peer_tags v = Except.ok []) := by
  constructor
  · intro hp hk
    unfold peer_tags lookupKwargs
    rw [hp, hk]
  · intro kw hkw hh hp
    unfold peer_tags
    rw [hkw]
    simp [hh, hp]

/-- Witness for C9 at two concrete objects: one lacking both attributes
(raises), one with empty direct `connection_kwargs` (no tags). -/
theorem peer_tags_missing_config_witness :
    (orphanPipeObj.connection_pool = none ∧ orphanPipeObj.connection_kwargs = none ∧
     peer_tags orphanPipeObj = Except.error (PyExc.attributeError "connection_kwargs")) ∧
    (lookupKwargs emptyKwObj = some { host := none, port := none } ∧
     peer_tags emptyKwObj = Except.ok []) :=
  ⟨⟨rfl, rfl, (peer_tags_missing_config orphanPipeObj).1 rfl rfl⟩,
   ⟨rfl, (peer_tags_missing_config emptyKwObj).2 { host := none, port := none } rfl rfl rfl⟩⟩

/-- C2 counterexample: a call through the class-level traced dispatch on
a truthy originating object without connection configuration: the
interceptor's own peer-tag lookup raises before the `try` block, the
`AttributeError` replaces the store result, and the underlying store
call never executes — bookkeeping errors are not swallowed. -/
theorem bookkeeping_error_blocks_store_call :
    (tracing_execute_command cfgR true [bareObj, strVal "GET", strVal "x"]
        (Except.ok (7 : Int))).called = false ∧
    (tracing_execute_command cfgR true [bareObj, strVal "GET", strVal "x"]
        (Except.ok (7 : Int))).result
      = Except.error (PyExc.attributeError "connection_kwargs") :=
  ⟨rfl, rfl⟩

/-- C2 amended: only statement-value conversion is fail-open — whatever
the decodability of the argument values, the underlying call executes
and its own result or exception comes back unchanged, both on the
instance-level path and (when the peer lookup succeeds) on the
class-level path; but an error in the peer-tag lookup itself is not
caught anywhere: it prevents the underlying store call and replaces its
result. -/
theorem bookkeeping_fail_open_scope {α : Type} (cfg : Config) :
    (∀ (cmd : PyVal) (rest : List PyVal) (oracle : Except PyExc α),
      (tracing_execute_command cfg false (cmd :: rest) oracle).called = true ∧
      (tracing_execute_command cfg false (cmd :: rest) oracle).result = oracle) ∧
    (∀ (inst cmd : PyVal) (rest : List PyVal) (oracle : Except PyExc α),
      peerSafe inst = true →
      (tracing_execute_command cfg true (inst :: cmd :: rest) oracle).called = true ∧
      (tracing_execute_command cfg true (inst :: cmd :: rest) oracle).result = oracle) ∧
    (∀ (inst cmd : PyVal) (rest : List PyVal) (oracle : Except PyExc α),
      inst.truthy = true → lookupKwargs inst = none →
      (tracing_execute_command cfg true (inst :: cmd :: rest) oracle).called = false ∧
      (tracing_execute_command cfg true (inst :: cmd :: rest) oracle).result
        = Except.error (PyExc.attributeError "connection_kwargs")) := by
  refine ⟨?_, ?_, ?_⟩
  · intro cmd rest oracle
    exact ⟨by cases oracle <;> rfl, by cases oracle <;> rfl⟩
  · intro inst cmd rest oracle hsafe
    obtain ⟨pt, heq, -⟩ := set_base_span_tags_ok inst (normalize_stmt (cmd :: rest)) hsafe
    constructor
    · simp only [tracing_execute_command, heq]
      cases oracle <;> rfl
    · simp only [tracing_execute_command, heq]
      cases oracle <;> rfl
  · intro inst cmd rest oracle htr hkw
    have hpe : peer_tags inst = Except.error (PyExc.attributeError "connection_kwargs") := by
      unfold peer_tags
      rw [hkw]
    have hsb : set_base_span_tags (some inst) (normalize_stmt (cmd :: rest))
        = Except.error (PyExc.attributeError "connection_kwargs") := by
      unfold set_base_span_tags
      simp [htr, hpe]
    constructor
    · simp only [tracing_execute_command, hsb]
    · simp only [tracing_execute_command, hsb]

/-- Witness for C2 at concrete inputs: a non-decodable operand on the
instance path still reaches the store; a peer-safe class-path call
reaches the store; the bare object's class-path call does not. -/
theorem bookkeeping_fail_open_scope_witness :
    ((tracing_execute_command cfgR false [strVal "SET", bytesVal]
        (Except.ok (3 : Int))).called = true ∧
     (tracing_execute_command cfgR false [strVal "SET", bytesVal]
        (Except.ok (3 : Int))).result = Except.ok 3) ∧
    (peerSafe goodObj = true ∧
     (tracing_execute_command cfgR true [goodObj, strVal "SET", strVal "k"]
        (Except.error (PyExc.exc 9) : Except PyExc Int)).called = true ∧
     (tracing_execute_command cfgR true [goodObj, strVal "SET", strVal "k"]
        (Except.error (PyExc.exc 9) : Except PyExc Int)).result
       = Except.error (PyExc.exc 9)) ∧
    (bareObj.truthy = true ∧ lookupKwargs bareObj = none ∧
     (tracing_execute_command cfgR true [bareObj, strVal "SET", strVal "k"]
        (Except.ok (3 : Int))).called = false) :=
  ⟨(bookkeeping_fail_open_scope cfgR).1 (strVal "SET") [bytesVal] (Except.ok 3),
   ⟨rfl,
    ((bookkeeping_fail_open_scope cfgR).2.1 goodObj (strVal "SET") [strVal "k"]
      (Except.error (PyExc.exc 9)) rfl).1,
    ((bookkeeping_fail_open_scope cfgR).2.1 goodObj (strVal "SET") [strVal "k"]
      (Except.error (PyExc.exc 9)) rfl).2⟩,
   ⟨rfl, rfl,
    ((bookkeeping_fail_open_scope cfgR).2.2 bareObj (strVal "SET") [strVal "k"]
      (Except.ok 3) rfl rfl).1⟩⟩

/-- C3: a non-empty command invocation through a wrapped
`execute_command` produces exactly one span, named
`<g_trace_prefix>/<command>` when the global name is set and
`<command>` otherwise, whose `db.statement` tag is the space-joined,
length-truncated argument list — on the instance-level path, and on the
class-level path whenever the originating instance's peer lookup does
not raise. -/
theorem execute_command_one_span {α : Type} (cfg : Config) :
    (∀ (cmd : PyVal) (rest : List PyVal) (oracle : Except PyExc α),
      (tracing_execute_command cfg false (cmd :: rest) oracle).spans.length = 1 ∧
      ∀ sp ∈ (tracing_execute_command cfg false (cmd :: rest) oracle).spans,
        (∀ p, cfg.pfx = some p → sp.operationName = p ++ "/" ++ cmd.display) ∧
        (cfg.pfx = none → sp.operationName = cmd.display) ∧
        tagOf sp "db.statement" = some (TagVal.s (normalize_stmt (cmd :: rest)))) ∧
    (∀ (inst cmd : PyVal) (rest : List PyVal) (oracle : Except PyExc α),
      peerSafe inst = true →
      (tracing_execute_command cfg true (inst :: cmd :: rest) oracle).spans.length = 1 ∧
      ∀ sp ∈ (tracing_execute_command cfg true (inst :: cmd :: rest) oracle).spans,
        (∀ p, cfg.pfx = some p → sp.operationName = p ++ "/" ++ cmd.display) ∧
        (cfg.pfx = none → sp.operationName = cmd.display) ∧
        tagOf sp "db.statement" = some (TagVal.s (normalize_stmt (cmd :: rest)))) := by
  constructor
  · intro cmd rest oracle
    have hred : tracing_execute_command cfg false (cmd :: rest) oracle
        = runBracket (get_operation_name cfg cmd.display)
            ([] ++ baseTags (normalize_stmt (cmd :: rest))) oracle := rfl
    rw [hred]
    obtain ⟨hlen, hprops⟩ :=
      runBracket_span_props (get_operation_name cfg cmd.display) []
        (normalize_stmt (cmd :: rest)) (by simp) oracle
    refine ⟨hlen, ?_⟩
    intro sp hsp
    obtain ⟨hname, -, hstmt⟩ := hprops sp hsp
    refine ⟨?_, ?_, hstmt⟩
    · intro p hp
      rw [hname]
      unfold get_operation_name
      rw [hp]
    · intro hp
      rw [hname]
      unfold get_operation_name
      rw [hp]
  · intro inst cmd rest oracle hsafe
    obtain ⟨pt, heq, hkeys⟩ := set_base_span_tags_ok inst (normalize_stmt (cmd :: rest)) hsafe
    have hred : tracing_execute_command cfg true (inst :: cmd :: rest) oracle
        = runBracket (get_operation_name cfg cmd.display)
            (pt ++ baseTags (normalize_stmt (cmd :: rest))) oracle := by
      simp only [tracing_execute_command, heq]
    rw [hred]
    obtain ⟨hlen, hprops⟩ :=
      runBracket_span_props (get_operation_name cfg cmd.display) pt
        (normalize_stmt (cmd :: rest)) hkeys oracle
    refine ⟨hlen, ?_⟩
    intro sp hsp
    obtain ⟨hname, -, hstmt⟩ := hprops sp hsp
    refine ⟨?_, ?_, hstmt⟩
    · intro p hp
      rw [hname]
      unfold get_operation_name
      rw [hp]
    · intro hp
      rw [hname]
      unfold get_operation_name
      rw [hp]

/-- Witness for C3: `SET k v` through the instance path under the
"Redis" name, and through the class path on a connected instance. -/
theorem execute_command_one_span_witness :
    ((tracing_execute_command cfgR false [strVal "SET", strVal "k", strVal "v"]
        (Except.ok (1 : Int))).spans.length = 1 ∧
     ∀ sp ∈ (tracing_execute_command cfgR false [strVal "SET", strVal "k", strVal "v"]
        (Except.ok (1 : Int))).spans,
       (∀ p, cfgR.pfx = some p → sp.operationName = p ++ "/" ++ (strVal "SET").display) ∧
       (cfgR.pfx = none → sp.operationName = (strVal "SET").display) ∧
       tagOf sp "db.statement"
         = some (TagVal.s (normalize_stmt [strVal "SET", strVal "k", strVal "v"]))) ∧
    (peerSafe goodObj = true ∧
     (tracing_execute_command cfgR true [goodObj, strVal "SET", strVal "k", strVal "v"]
        (Except.ok (1 : Int))).spans.length = 1) :=
  ⟨(execute_command_one_span cfgR).1 (strVal "SET") [strVal "k", strVal "v"] (Except.ok 1),
   rfl,
   ((execute_command_one_span cfgR).2 goodObj (strVal "SET") [strVal "k", strVal "v"]
     (Except.ok 1) rfl).1⟩

/-- C5 counterexample: set up tracing with all-classes activation, then
issue a command on an instance that was constructed before (its instance
dict is empty, `newInstance`) and never individually activated.  The
class-level patch replaced `execute_command` on the class, the instance
resolves the method there at call time, and the command produces one
span — not the zero spans the claim promises. -/
theorem pre_activation_instance_is_traced :
    (clientExecuteCommand (setup_tracing true "Redis" initialClassDict).fst
        (setup_tracing true "Redis" initialClassDict).snd (newInstance goodObj)
        [strVal "SET", strVal "k", strVal "v"] (Except.ok (1 : Int))).spans.length = 1 ∧
    (clientExecuteCommand (setup_tracing true "Redis" initialClassDict).fst
        (setup_tracing true "Redis" initialClassDict).snd (newInstance goodObj)
        [strVal "SET", strVal "k", strVal "v"] (Except.ok (1 : Int))).spans ≠ [] := by
  refine ⟨rfl, by decide⟩

/-- C5 amended: a client instance created before global class-level
activation, and never individually activated, IS traced afterwards:
class-level activation replaces the dispatch method on the class, and
Python method lookup on any instance whose own dict does not shadow it
— present or future — resolves to the traced method, so a command
issued on it produces one span. -/
theorem class_patch_traces_preexisting {α : Type} (p : String) (cls : RedisClassDict)
    (v cmd : PyVal) (rest : List PyVal) (oracle : Except PyExc α) :
    (clientExecuteCommand (setup_tracing true p cls).fst (setup_tracing true p cls).snd
        (newInstance v) (cmd :: rest) oracle).spans.length = 1 := by
  unfold clientExecuteCommand newInstance setup_tracing patch_redis_classes
  simp only [Bool.false_eq_true, if_false, if_true]
  cases hsb : set_base_span_tags (some v) (normalize_stmt (cmd :: rest)) with
  | error e => simp [tracing_execute_command, hsb]
  | ok tags =>
    simp only [tracing_execute_command, hsb]
    cases oracle <;> rfl

/-- Properties of every span the bracket produces when the wrapped call
raises: the exception propagates, one span exists, finished once, with
the `error` and `error.object` tags set after whatever was there. -/
theorem runBracket_error_props {α : Type} (opn : String) (tags : List (String × TagVal))
    (e : PyExc) :
    (runBracket opn tags (Except.error e : Except PyExc α)).result = Except.error e ∧
    (runBracket opn tags (Except.error e : Except PyExc α)).spans.length = 1 ∧
    ∀ sp ∈ (runBracket opn tags (Except.error e : Except PyExc α)).spans,
      sp.finishCount = 1 ∧ ("error", TagVal.s "true") ∈ sp.tags ∧
      ("error.object", TagVal.e e) ∈ sp.tags := by
  refine ⟨rfl, rfl, ?_⟩
  intro sp hsp
  simp only [runBracket, List.mem_singleton] at hsp
  subst hsp
  refine ⟨rfl, ?_, ?_⟩ <;> simp

/-- C6: executing a traced pipeline with a non-empty pending batch
produces exactly one span, named `MULTI` under the configured name
(`<g_trace_prefix>/MULTI` when set), whose `db.statement` tag is the
`;`-joined per-command statement of the batch as it stood BEFORE the
original `execute` ran — the oracle standing for the original execute is
arbitrary, so in particular one that clears the stack leaves the
statement unchanged. -/
theorem execute_multi_span {α : Type} (cfg : Config) (pipe : Pipe)
    (oracle : Bool → List CmdEntry → ExecOutcome α) (roe : Bool)
    (hne : pipe.command_stack ≠ []) (hsafe : peerSafe pipe.obj = true) :
    (tracing_execute cfg pipe oracle roe).spans.length = 1 ∧
    ∀ sp ∈ (tracing_execute cfg pipe oracle roe).spans,
      sp.operationName = get_operation_name cfg "MULTI" ∧
      (∀ p, cfg.pfx = some p → sp.operationName = p ++ "/MULTI") ∧
      tagOf sp "db.statement" = some (TagVal.s (normalize_stmts pipe.command_stack)) := by
  obtain ⟨pt, heq, hkeys⟩ :=
    set_base_span_tags_ok pipe.obj (normalize_stmts pipe.command_stack) hsafe
  have hspans : (tracing_execute cfg pipe oracle roe).spans
      = (runBracket (get_operation_name cfg "MULTI")
          (pt ++ baseTags (normalize_stmts pipe.command_stack))
          (oracle roe pipe.command_stack).result).spans := by
    unfold tracing_execute
    simp [hne, heq]
  rw [hspans]
  obtain ⟨hlen, hprops⟩ :=
    runBracket_span_props (get_operation_name cfg "MULTI") pt
      (normalize_stmts pipe.command_stack) hkeys (oracle roe pipe.command_stack).result
  refine ⟨hlen, ?_⟩
  intro sp hsp
  obtain ⟨hname, -, hstmt⟩ := hprops sp hsp
  refine ⟨hname, ?_, hstmt⟩
  intro p hp
  rw [hname]
  unfold get_operation_name
  rw [hp]
  show p ++ "/" ++ "MULTI" = p ++ "/MULTI"
  rw [String.append_assoc]
  rfl

/-- Witness for C6: a two-command batch under the "Redis" name with an
oracle that clears the stack: one span, named "Redis/MULTI", with the
statement captured from the pre-execution stack. -/
theorem execute_multi_span_witness :
    pipeTwo.command_stack ≠ [] ∧ peerSafe pipeTwo.obj = true ∧
    ((tracing_execute cfgR pipeTwo sampleExecOracle true).spans.length = 1 ∧
     ∀ sp ∈ (tracing_execute cfgR pipeTwo sampleExecOracle true).spans,
       sp.operationName = get_operation_name cfgR "MULTI" ∧
       (∀ p, cfgR.pfx = some p → sp.operationName = p ++ "/MULTI") ∧
       tagOf sp "db.statement" = some (TagVal.s (normalize_stmts pipeTwo.command_stack))) :=
  ⟨by decide, rfl,
   execute_multi_span cfgR pipeTwo sampleExecOracle true (by decide) rfl⟩

/-- An original pipeline `execute` that raises exception 13. -/
def failExecOracle : Bool → List CmdEntry → ExecOutcome Int :=
  fun _ _ => { new_stack := [], result := Except.error (PyExc.exc 13) }

/-- An original pubsub `parse_response` that raises exception 13. -/
def failParseOracle : Bool → Int → Except PyExc Int :=
  fun _ _ => Except.error (PyExc.exc 13)

/-- C4: when the underlying method raises E after the span was created,
every wrapped path tags the span with `error="true"` and `error.object`
carrying E, finishes it exactly once, and re-raises E unchanged — on the
instance-level and class-level `execute_command` paths, on the pipeline
`execute` path and on the pubsub `parse_response` path — while on the
pipeline immediate-execute path the span is tagged and finished the same
way but E is swallowed and the caller receives `None`. -/
theorem wrapped_error_semantics {α : Type} (cfg : Config) (n : Nat)
    (cmd : PyVal) (rest : List PyVal)
    (inst : PyVal) (hinst : peerSafe inst = true)
    (pipe : Pipe) (epOracle : Bool → List CmdEntry → ExecOutcome α) (roe : Bool)
    (hne : pipe.command_stack ≠ []) (hpipe : peerSafe pipe.obj = true)
    (hex : (epOracle roe pipe.command_stack).result = Except.error (PyExc.exc n))
    (pubsub : PyVal) (hpub : peerSafe pubsub = true)
    (prOracle : Bool → Int → Except PyExc α) (blk : Bool) (tmo : Int)
    (hpr : prOracle blk tmo = Except.error (PyExc.exc n))
    (ipipe : Pipe) (icmd : PyVal) (irest : List PyVal) (hip : peerSafe ipipe.obj = true) :
    ((tracing_execute_command cfg false (cmd :: rest)
        (Except.error (PyExc.exc n) : Except PyExc α)).result = Except.error (PyExc.exc n) ∧
     (tracing_execute_command cfg false (cmd :: rest)
        (Except.error (PyExc.exc n) : Except PyExc α)).spans.length = 1 ∧
     ∀ sp ∈ (tracing_execute_command cfg false (cmd :: rest)
        (Except.error (PyExc.exc n) : Except PyExc α)).spans,
       sp.finishCount = 1 ∧ ("error", TagVal.s "true") ∈ sp.tags ∧
       ("error.object", TagVal.e (PyExc.exc n)) ∈ sp.tags) ∧
    ((tracing_execute_command cfg true (inst :: cmd :: rest)
        (Except.error (PyExc.exc n) : Except PyExc α)).result = Except.error (PyExc.exc n) ∧
     (tracing_execute_command cfg true (inst :: cmd :: rest)
        (Except.error (PyExc.exc n) : Except PyExc α)).spans.length = 1 ∧
     ∀ sp ∈ (tracing_execute_command cfg true (inst :: cmd :: rest)
        (Except.error (PyExc.exc n) : Except PyExc α)).spans,
       sp.finishCount = 1 ∧ ("error", TagVal.s "true") ∈ sp.tags ∧
       ("error.object", TagVal.e (PyExc.exc n)) ∈ sp.tags) ∧
    ((tracing_execute cfg pipe epOracle roe).result = Except.error (PyExc.exc n) ∧
     (tracing_execute cfg pipe epOracle roe).spans.length = 1 ∧
     ∀ sp ∈ (tracing_execute cfg pipe epOracle roe).spans,
       sp.finishCount = 1 ∧ ("error", TagVal.s "true") ∈ sp.tags ∧
       ("error.object", TagVal.e (PyExc.exc n)) ∈ sp.tags) ∧
    ((tracing_parse_response cfg pubsub prOracle blk tmo).result
        = Except.error (PyExc.exc n) ∧
     (tracing_parse_response cfg pubsub prOracle blk tmo).spans.length = 1 ∧
     ∀ sp ∈ (tracing_parse_response cfg pubsub prOracle blk tmo).spans,
       sp.finishCount = 1 ∧ ("error", TagVal.s "true") ∈ sp.tags ∧
       ("error.object", TagVal.e (PyExc.exc n)) ∈ sp.tags) ∧
    ((tracing_immediate_execute_command cfg ipipe (icmd :: irest)
        (Except.error (PyExc.exc n) : Except PyExc α)).result = Except.ok none ∧
     (tracing_immediate_execute_command cfg ipipe (icmd :: irest)
        (Except.error (PyExc.exc n) : Except PyExc α)).called = true ∧
     (tracing_immediate_execute_command cfg ipipe (icmd :: irest)
        (Except.error (PyExc.exc n) : Except PyExc α)).spans.length = 1 ∧
     ∀ sp ∈ (tracing_immediate_execute_command cfg ipipe (icmd :: irest)
        (Except.error (PyExc.exc n) : Except PyExc α)).spans,
       sp.finishCount = 1 ∧ ("error", TagVal.s "true") ∈ sp.tags ∧
       ("error.object", TagVal.e (PyExc.exc n)) ∈ sp.tags) := by
  refine ⟨?_, ?_, ?_, ?_, ?_⟩
  · have hred : tracing_execute_command cfg false (cmd :: rest)
        (Except.error (PyExc.exc n) : Except PyExc α)
        = runBracket (get_operation_name cfg cmd.display)
            ([] ++ baseTags (normalize_stmt (cmd :: rest))) (Except.error (PyExc.exc n)) := rfl
    rw [hred]
    exact runBracket_error_props _ _ _
  · obtain ⟨pt, heq, -⟩ := set_base_span_tags_ok inst (normalize_stmt (cmd :: rest)) hinst
    have hred : tracing_execute_command cfg true (inst :: cmd :: rest)
        (Except.error (PyExc.exc n) : Except PyExc α)
        = runBracket (get_operation_name cfg cmd.display)
            (pt ++ baseTags (normalize_stmt (cmd :: rest))) (Except.error (PyExc.exc n)) := by
      simp only [tracing_execute_command, heq]
    rw [hred]
    exact runBracket_error_props _ _ _
  · obtain ⟨pt, heq, -⟩ :=
      set_base_span_tags_ok pipe.obj (normalize_stmts pipe.command_stack) hpipe
    have hredr : (tracing_execute cfg pipe epOracle roe).result
        = (runBracket (get_operation_name cfg "MULTI")
            (pt ++ baseTags (normalize_stmts pipe.command_stack))
            (epOracle roe pipe.command_stack).result).result := by
      unfold tracing_execute
      simp [hne, heq]
    have hreds : (tracing_execute cfg pipe epOracle roe).spans
        = (runBracket (get_operation_name cfg "MULTI")
            (pt ++ baseTags (normalize_stmts pipe.command_stack))
            (epOracle roe pipe.command_stack).result).spans := by
      unfold tracing_execute
      simp [hne, heq]
    rw [hredr, hreds, hex]
    exact runBracket_error_props _ _ _
  · obtain ⟨pt, heq, -⟩ := set_base_span_tags_ok pubsub "" hpub
    have hred : tracing_parse_response cfg pubsub prOracle blk tmo
        = runBracket (get_operation_name cfg "SUB") (pt ++ baseTags "")
            (prOracle blk tmo) := by
      simp only [tracing_parse_response, heq]
    rw [hred, hpr]
    exact runBracket_error_props _ _ _
  · obtain ⟨pt, heq, -⟩ := set_base_span_tags_ok ipipe.obj (normalize_stmt (icmd :: irest)) hip
    have hred : tracing_immediate_execute_command cfg ipipe (icmd :: irest)
        (Except.error (PyExc.exc n) : Except PyExc α)
        = { result := Except.ok none
            spans := [{ operationName := get_operation_name cfg icmd.display
                        tags := (pt ++ baseTags (normalize_stmt (icmd :: irest)))
                          ++ [("error", TagVal.s "true"),
                              ("error.object", TagVal.e (PyExc.exc n))]
                        finishCount := 1 }]
            called := true } := by
      simp only [tracing_immediate_execute_command, heq]
    rw [hred]
    refine ⟨rfl, rfl, rfl, ?_⟩
    intro sp hsp
    simp only [List.mem_singleton] at hsp
    subst hsp
    refine ⟨rfl, ?_, ?_⟩ <;> simp

/-- Witness for C4: exception 13 through each path at concrete inputs —
it propagates from the three re-raising paths and is swallowed (the
caller sees `None`) on the immediate path. -/
theorem wrapped_error_semantics_witness :
    pipeTwo.command_stack ≠ [] ∧
    (tracing_execute_command cfgR false [strVal "SET", strVal "k"]
        (Except.error (PyExc.exc 13) : Except PyExc Int)).result
      = Except.error (PyExc.exc 13) ∧
    (tracing_execute_command cfgR true [goodObj, strVal "SET", strVal "k"]
        (Except.error (PyExc.exc 13) : Except PyExc Int)).result
      = Except.error (PyExc.exc 13) ∧
    (tracing_execute cfgR pipeTwo failExecOracle true).result
      = Except.error (PyExc.exc 13) ∧
    (tracing_parse_response cfgR goodObj failParseOracle true 0).result
      = Except.error (PyExc.exc 13) ∧
    (tracing_immediate_execute_command cfgR pipeEmpty [strVal "WATCH", strVal "k"]
        (Except.error (PyExc.exc 13) : Except PyExc Int)).result = Except.ok none := by
  have W := wrapped_error_semantics cfgR 13 (strVal "SET") [strVal "k"] goodObj rfl
    pipeTwo failExecOracle true (by decide) rfl rfl goodObj rfl failParseOracle true 0 rfl
    pipeEmpty (strVal "WATCH") [strVal "k"] rfl
  exact ⟨by decide, W.1.1, W.2.1.1, W.2.2.1.1, W.2.2.2.1.1, W.2.2.2.2.1⟩

/-- C10: on the per-instance wrapping path (`trace_client`'s direct
patch and `trace_pubsub`'s command path both call
`_patch_obj_execute_command` without `is_klass`), the wrapper passes
`None` as the originating object, so no span it produces carries any
peer host/port tag; on the class-level path the originating object is
recovered from the first positional argument, and exactly its peer tags
open the span's tag list. -/
theorem per_instance_no_peer_tags {α : Type} (cfg : Config) :
    (∀ (args : List PyVal) (oracle : Except PyExc α),
      ∀ sp ∈ (tracing_execute_command cfg false args oracle).spans,
        tagOf sp PEER_HOST_IPV4 = none ∧ tagOf sp PEER_HOSTNAME = none ∧
        tagOf sp PEER_PORT = none) ∧
    (∀ (inst cmd : PyVal) (rest : List PyVal) (oracle : Except PyExc α)
        (pt : List (String × TagVal)),
      inst.truthy = true → peer_tags inst = Except.ok pt →
      ∀ sp ∈ (tracing_execute_command cfg true (inst :: cmd :: rest) oracle).spans,
        ∃ extra, sp.tags = pt ++ baseTags (normalize_stmt (cmd :: rest)) ++ extra) := by
  constructor
  · intro args oracle sp hsp
    cases args with
    | nil => simp [tracing_execute_command] at hsp
    | cons cmd rest =>
      have hred : tracing_execute_command cfg false (cmd :: rest) oracle
          = runBracket (get_operation_name cfg cmd.display)
              ([] ++ baseTags (normalize_stmt (cmd :: rest))) oracle := rfl
      rw [hred] at hsp
      cases oracle with
      | ok rv =>
        simp only [runBracket, List.mem_singleton] at hsp
        subst hsp
        exact ⟨rfl, rfl, rfl⟩
      | error e =>
        simp only [runBracket, List.mem_singleton] at hsp
        subst hsp
        exact ⟨rfl, rfl, rfl⟩
  · intro inst cmd rest oracle pt htr hpt sp hsp
    have heq : set_base_span_tags (some inst) (normalize_stmt (cmd :: rest))
        = Except.ok (pt ++ baseTags (normalize_stmt (cmd :: rest))) := by
      unfold set_base_span_tags
      simp [htr, hpt]
    have hred : tracing_execute_command cfg true (inst :: cmd :: rest) oracle
        = runBracket (get_operation_name cfg cmd.display)
            (pt ++ baseTags (normalize_stmt (cmd :: rest))) oracle := by
      simp only [tracing_execute_command, heq]
    rw [hred] at hsp
    cases oracle with
    | ok rv =>
      simp only [runBracket, List.mem_singleton] at hsp
      subst hsp
      exact ⟨[], (List.append_nil _).symm⟩
    | error e =>
      simp only [runBracket, List.mem_singleton] at hsp
      subst hsp
      exact ⟨[("error", TagVal.s "true"), ("error.object", TagVal.e e)], rfl⟩

/-- Witness for C10: a command through the instance path shows no peer
tags; through the class path on a connected instance the span's tags
start with that instance's peer tags. -/
theorem per_instance_no_peer_tags_witness :
    (∀ sp ∈ (tracing_execute_command cfgR false [strVal "SET", strVal "k"]
        (Except.ok (1 : Int))).spans,
      tagOf sp PEER_HOST_IPV4 = none ∧ tagOf sp PEER_HOSTNAME = none ∧
      tagOf sp PEER_PORT = none) ∧
    (goodObj.truthy = true ∧
     peer_tags goodObj
       = Except.ok [(PEER_HOST_IPV4, TagVal.s "127.0.0.1"), (PEER_PORT, TagVal.i 6379)] ∧
     ∀ sp ∈ (tracing_execute_command cfgR true [goodObj, strVal "SET", strVal "k"]
        (Except.ok (1 : Int))).spans,
       ∃ extra, sp.tags
         = [(PEER_HOST_IPV4, TagVal.s "127.0.0.1"), (PEER_PORT, TagVal.i 6379)]
             ++ baseTags (normalize_stmt [strVal "SET", strVal "k"]) ++ extra) :=
  ⟨(per_instance_no_peer_tags cfgR).1 [strVal "SET", strVal "k"] (Except.ok 1),
   rfl, rfl,
   (per_instance_no_peer_tags cfgR).2 goodObj (strVal "SET") [strVal "k"] (Except.ok 1)
     [(PEER_HOST_IPV4, TagVal.s "127.0.0.1"), (PEER_PORT, TagVal.i 6379)] rfl rfl⟩

end RedisOpentracing
